import Mathlib

/-
  Verification of the chat client in src/ChatApp.py (windowed, cost-tracking
  revision) and src/ChatGPT.py (hybrid console/window revision).

  Modelling conventions:
  * Python's dynamically typed JSON-shaped data (self.messages, parsed
    response bodies, parsed history files) is modelled by `PyVal`.
  * Operations that can raise a Python exception return `Except String a`,
    the string naming the exception.
  * `json.dump`/`json.load` (the standard library codec) are treated as an
    inverse pair: a written file is identified with the `PyVal` that was
    dumped, and loading a file yields that `PyVal` back.
  * The network (`requests.post`) is an oracle `httpPost` in an `Env`
    record mapping the posted JSON payload to an outcome: a response
    (status plus optional parsed JSON body, with `none` meaning the body
    is not valid JSON so that `response.json()` raises) or a raised
    transport exception.
  * Observable effects are threaded through the state: `display` holds the
    lines appended to the chat-history widget, `requests` the payloads
    posted so far, `savedFiles` the files written with their contents, and
    `terminated` records that `os._exit(1)` ran.
-/

/-- Dynamically typed Python value, restricted to the JSON-shaped values
this program manipulates. -/
inductive PyVal where
  | null : PyVal
  | bool (b : Bool) : PyVal
  | int (n : Int) : PyVal
  | str (s : String) : PyVal
  | list (l : List PyVal) : PyVal
  | dict (d : List (String × PyVal)) : PyVal

/-- Python `x[k]` for a string key: dict lookup, `KeyError` when absent,
`TypeError` on non-dict subscripting with a string key. -/
def pyGetItem : PyVal → String → Except String PyVal
  | PyVal.dict d, k =>
    match d.lookup k with
    | some v => Except.ok v
    | Option.none => Except.error ("KeyError: " ++ k)
  | PyVal.str _, _ => Except.error "TypeError: string indices must be integers"
  | PyVal.list _, _ => Except.error "TypeError: list indices must be integers"
  | _, _ => Except.error "TypeError: object is not subscriptable"

/-- Python `d.get(k, default)`: only dicts have `.get`; anything else
raises `AttributeError`. -/
def pyGet : PyVal → String → PyVal → Except String PyVal
  | PyVal.dict d, k, dflt =>
    Except.ok (match d.lookup k with
               | some v => v
               | Option.none => dflt)
  | _, _, _ => Except.error "AttributeError: get"

/-- Python `l.append(x)`: only lists have `.append`. -/
def pyAppend : PyVal → PyVal → Except String PyVal
  | PyVal.list l, x => Except.ok (PyVal.list (l ++ [x]))
  | _, _ => Except.error "AttributeError: append"

/-- Python `a + b` for the list-concatenation use in `get_file_name`. -/
def pyAdd : PyVal → PyVal → Except String PyVal
  | PyVal.list a, PyVal.list b => Except.ok (PyVal.list (a ++ b))
  | _, _ => Except.error "TypeError: unsupported operand types"

/-- Numeric coercion for `total_cost += cost` (ints, and bools which are
ints in Python; anything else makes `+=` raise `TypeError`).  Costs are
modelled as integers; the claims about cost only concern it being
unchanged or increased by zero. -/
def pyAsNum : PyVal → Except String Int
  | PyVal.int n => Except.ok n
  | PyVal.bool b => Except.ok (if b then 1 else 0)
  | _ => Except.error "TypeError: unsupported operand types"

/-- Python `x.upper()`: only strings have `.upper`. -/
def pyUpper : PyVal → Except String String
  | PyVal.str s => Except.ok s.toUpper
  | _ => Except.error "AttributeError: upper"

/-- Python `str(x)` as used in display f-strings.  Container rendering is
abstracted (no claim inspects the rendered text of a non-string value). -/
def pyStrOf : PyVal → String
  | PyVal.str s => s
  | PyVal.int n => toString n
  | PyVal.bool b => if b then "True" else "False"
  | PyVal.null => "None"
  | PyVal.list _ => "<list>"
  | PyVal.dict _ => "<dict>"

/-- Python iteration `for x in v`: lists yield elements, strings yield
one-character strings, dicts yield their keys; other values raise
`TypeError`. -/
def pyIter : PyVal → Except String (List PyVal)
  | PyVal.list l => Except.ok l
  | PyVal.str s => Except.ok (s.data.map (fun c => PyVal.str (String.mk [c])))
  | PyVal.dict d => Except.ok (d.map (fun kv => PyVal.str kv.1))
  | _ => Except.error "TypeError: object is not iterable"

/-- Length of a Python list value (0 on non-lists); used to observe
conversation growth. -/
def pyListLength : PyVal → Nat
  | PyVal.list l => l.length
  | _ => 0

/-- A chat message as the spec's data model sees it: a role/content pair. -/
structure Message where
  role : String
  content : String

/-- The dict `\x7b"role": role, "content": content\x7d` the program appends
to `self.messages`. -/
def msgToPy (m : Message) : PyVal :=
  PyVal.dict [("role", PyVal.str m.role), ("content", PyVal.str m.content)]

/-- The JSON document `save` writes for a conversation: a list of
role/content dicts. -/
def convToPy (c : List Message) : PyVal :=
  PyVal.list (c.map msgToPy)

/-- Reading one message back the way the code does (`message[role]`,
`message[content]`), as a role/content pair when both are strings. -/
def pyMsgOf (m : PyVal) : Option Message :=
  match pyGetItem m "role", pyGetItem m "content" with
  | Except.ok (PyVal.str r), Except.ok (PyVal.str c) => some ⟨r, c⟩
  | _, _ => Option.none

/-- Reading a list of parsed messages back as role/content pairs. -/
def readConv : List PyVal → Option (List Message)
  | [] => some []
  | m :: rest =>
    match pyMsgOf m, readConv rest with
    | some msg, some msgs => some (msg :: msgs)
    | _, _ => Option.none

/-- Reading a whole persisted history back as an ordered sequence of
role/content pairs. -/
def pyToConv : PyVal → Option (List Message)
  | PyVal.list l => readConv l
  | _ => Option.none

/-- An HTTP response as `requests` returns it: a status code and the
result of `response.json()` (`none` when the body is not valid JSON, so
that `.json()` raises). -/
structure HttpResponse where
  status : Nat
  body : Option PyVal

/-- Outcome of `requests.post`: either a response object or a raised
transport exception (connection error, timeout, ...). -/
inductive HttpResult where
  | ok (r : HttpResponse) : HttpResult
  | exn (e : String) : HttpResult

/-- The program's environment: the network as an oracle from posted
payload to outcome, the formatted current time `datetime.now().strftime`,
the generated `uuid.uuid4()` string, and whether opening and writing the
history file succeeds. -/
structure Env where
  httpPost : PyVal → HttpResult
  now : String
  uuid : String
  diskOk : Bool

/-- The synthetic system instruction `get_file_name` appends. -/
def fileGenInstruction : String :=
  "You are a filename generator, based on current conversation, generate a valid file name with suffix .json, you must return the filename directly without output anything else, this is an automated program."

/-- The one-element list `system_prompt` of `get_file_name`. -/
def systemPromptList : PyVal :=
  PyVal.list [PyVal.dict [("role", PyVal.str "system"),
                          ("content", PyVal.str fileGenInstruction)]]

/-- The JSON payload posted to the endpoint: messages, temperature, model.
Temperature is modelled as an integer-valued opaque parameter (it is only
ever copied into the payload, never computed with). -/
def mkPayload (messages : PyVal) (temperature : Int) (model : String) : PyVal :=
  PyVal.dict [("messages", messages),
              ("temperature", PyVal.int temperature),
              ("model", PyVal.str model)]

/-- `get_file_name` (identical in src/ChatApp.py and src/ChatGPT.py up to
the request timeout): posts the conversation plus the filename-generator
instruction; on a 200 response returns the timestamp plus the body's
response field; on any other status returns the timestamp plus a uuid plus
".json"; a raised transport error, an unparsable 200 body, a 200 body
without a response field, or a non-string response value propagate as
exceptions.  Also returns the list of payloads actually posted. -/
def get_file_name (env : Env) (messages : PyVal) (temperature : Int)
    (model : String) : Except String String × List PyVal :=
  match pyAdd messages systemPromptList with
  | Except.error e => (Except.error e, [])
  | Except.ok allMsgs =>
    let payload := mkPayload allMsgs temperature model
    match env.httpPost payload with
    | HttpResult.exn e => (Except.error e, [payload])
    | HttpResult.ok resp =>
      if resp.status = 200 then
        match resp.body with
        | Option.none => (Except.error "JSONDecodeError", [payload])
        | some data =>
          match pyGetItem data "response" with
          | Except.error e => (Except.error e, [payload])
          | Except.ok v =>
            match v with
            | PyVal.str s => (Except.ok (env.now ++ s), [payload])
            | _ => (Except.error "TypeError: can only concatenate str", [payload])
      else
        (Except.ok (env.now ++ env.uuid ++ ".json"), [payload])

namespace ChatApp

/-- State of the windowed cost-tracking revision (src/ChatApp.py):
`messages` is the dynamically typed `self.messages`, `totalCost` the
running `self.total_cost`, `inputEnabled` whether the input widgets are
enabled, `display` the chat-history widget lines, `requests` the payloads
posted so far, `savedFiles` the files written (name and JSON content),
`terminated` whether `os._exit(1)` ran, and `model`/`temperature` the
generation parameters. -/
structure State where
  messages : PyVal
  totalCost : Int
  inputEnabled : Bool
  display : List String
  requests : List PyVal
  savedFiles : List (String × PyVal)
  terminated : Bool
  model : String
  temperature : Int

/-- `update_chat_history`: append a `ROLE: message` line to the widget. -/
def update_chat_history (s : State) (message role : String) : State :=
  { s with display := s.display ++ [role.toUpper ++ ": " ++ message] }

/-- `save` (src/ChatApp.py lines 188-197): inside a try, obtain a filename
from `get_file_name`, report the target path, and write the messages as
JSON; any exception anywhere in this (a propagated `get_file_name` failure
or a failed write) reaches `except Exception: os._exit(1)`.  Returns the
resulting state and whether the process exited. -/
def save (env : Env) (s : State) : State × Bool :=
  let gfn := get_file_name env s.messages s.temperature s.model
  let s0 := { s with requests := s.requests ++ gfn.2 }
  match gfn.1 with
  | Except.error _ => (s0, true)
  | Except.ok fn =>
    let s1 := update_chat_history s0 ("Saving to history/" ++ fn) "Program"
    if env.diskOk then
      ({ s1 with savedFiles := s1.savedFiles ++ [(fn, s.messages)] }, false)
    else
      (s1, true)

/-- The exception handler of `process_message`: display the failure line,
keeping all mutations made before the exception was raised. -/
def exnLine (s : State) (e : String) : State :=
  update_chat_history s ("Failed to get a response, exception: " ++ e) "Program"

/-- Body of `process_message` after the command checks (src/ChatApp.py
lines 285-316): append the message when non-empty, post the payload, and
on a 200 response accumulate the cost and append the assistant reply; a
non-200 status or any raised exception produces a failure line instead.
The `finally` re-enabling is in `process_message`. -/
def processBody (env : Env) (s : State) (message role : String) : State :=
  match (if message = "" then Except.ok s.messages
         else pyAppend s.messages
                (PyVal.dict [("role", PyVal.str role),
                             ("content", PyVal.str message)])) with
  | Except.error e => exnLine s e
  | Except.ok ms =>
    let s1 := if message = "" then s
              else update_chat_history { s with messages := ms } message role
    let payload := mkPayload s1.messages s1.temperature s1.model
    let s2 := { s1 with requests := s1.requests ++ [payload] }
    match env.httpPost payload with
    | HttpResult.exn e => exnLine s2 e
    | HttpResult.ok resp =>
      if resp.status = 200 then
        match resp.body with
        | Option.none => exnLine s2 "JSONDecodeError"
        | some data =>
          match pyGet data "cost" (PyVal.int 0) with
          | Except.error e => exnLine s2 e
          | Except.ok costVal =>
            match pyAsNum costVal with
            | Except.error e => exnLine s2 e
            | Except.ok c =>
              let s3 := { s2 with totalCost := s2.totalCost + c }
              match pyGetItem data "response" with
              | Except.error e => exnLine s3 e
              | Except.ok respVal =>
                match pyAppend s3.messages
                        (PyVal.dict [("role", PyVal.str "assistant"),
                                     ("content", respVal)]) with
                | Except.error e => exnLine s3 e
                | Except.ok ms2 =>
                  update_chat_history { s3 with messages := ms2 }
                    (pyStrOf respVal) "Assistant"
      else
        update_chat_history s2
          ("Failed to get a response, status code: " ++ toString resp.status)
          "Program"

/-- `process_message` (src/ChatApp.py lines 269-319): `~exit` saves and
then calls `os._exit(1)` (skipping the `finally`); `~save` saves and
returns, the `finally` re-enabling input unless `save` already exited;
anything else runs the body and the `finally` re-enables input. -/
def process_message (env : Env) (s : State) (message role : String) : State :=
  if message = "~exit" then
    let r := save env s
    { r.1 with terminated := true }
  else if message = "~save" then
    let r := save env s
    if r.2 then { r.1 with terminated := true }
    else { r.1 with inputEnabled := true }
  else
    let s1 := processBody env s message role
    { s1 with inputEnabled := true }

/-- The state while the worker thread is running: `send_message` disables
the input widgets before starting the thread. -/
def sendDuring (s : State) : State :=
  { s with inputEnabled := false }

/-- `send_message` (src/ChatApp.py lines 260-267) followed by the worker
thread's `process_message`: clears the input, disables the widgets, and
processes the message (there is no emptiness guard in this revision). -/
def send_message (env : Env) (s : State) (message role : String) : State :=
  process_message env (sendDuring s) message role

/-- `prepare_message`: append the input under the selected role without
any network call (no-op on empty input). -/
def prepare_message (s : State) (message role : String) : State :=
  if message = "" then s
  else
    match pyAppend s.messages
            (PyVal.dict [("role", PyVal.str role),
                         ("content", PyVal.str message)]) with
    | Except.error _ => s
    | Except.ok ms => update_chat_history { s with messages := ms } message role

/-- A sequence of sends, each a (message, role) pair. -/
def sendN (env : Env) (s : State) (inputs : List (String × String)) : State :=
  inputs.foldl (fun t mr => send_message env t mr.1 mr.2) s

/-- The display loop of `load` over one message: `message[role].upper()`
and `message[content]`, producing the displayed line or raising. -/
def renderLoadItem (m : PyVal) : Except String String :=
  match pyGetItem m "role" with
  | Except.error e => Except.error e
  | Except.ok role =>
    match pyUpper role with
    | Except.error e => Except.error e
    | Except.ok ru =>
      match pyGetItem m "content" with
      | Except.error e => Except.error e
      | Except.ok content => Except.ok (ru ++ ": " ++ pyStrOf content)

/-- The display loop of `load` over the parsed data: the lines displayed
before a failure, and the raised exception when one occurs. -/
def renderLoad : List PyVal → List String × Option String
  | [] => ([], Option.none)
  | m :: rest =>
    match renderLoadItem m with
    | Except.error e => ([], some e)
    | Except.ok line =>
      let r := renderLoad rest
      (line :: r.1, r.2)

/-- `load` (src/ChatApp.py lines 199-214): replace `self.messages` with
the parsed file content as-is (no validation, no filtering), clear the
widget, then iterate over the new value displaying each entry; the
iteration or the per-entry subscripting raises when the value is not a
list of role/content dicts, after the replacement has already happened.
Returns the new state and the raised exception, if any. -/
def load (s : State) (fileData : PyVal) : State × Option String :=
  let s1 := { s with messages := fileData, display := [] }
  match pyIter fileData with
  | Except.error e => (s1, some e)
  | Except.ok items =>
    let r := renderLoad items
    ({ s1 with display := r.1 }, r.2)

end ChatApp

namespace ChatGPT

/-- State of the hybrid revision (src/ChatGPT.py).  This revision tracks
no cost and never configures the input widget's enabled state, so
`inputEnabled` is never written; `crashed` records an uncaught exception
killing the worker thread (this revision has no try/except around
`process_message`). -/
structure State where
  messages : PyVal
  inputEnabled : Bool
  display : List String
  requests : List PyVal
  savedFiles : List (String × PyVal)
  terminated : Bool
  crashed : Bool
  model : String
  temperature : Int

/-- `pretty_print_conversation` / `update_chat_history`: append a
`ROLE: message` line. -/
def pretty_print_conversation (s : State) (message role : String) : State :=
  { s with display := s.display ++ [role.toUpper ++ ": " ++ message] }

/-- `save` (src/ChatGPT.py lines 60-68): same structure as the other
revision, without the widget line (it prints to the console). -/
def save (env : Env) (s : State) : State × Bool :=
  let gfn := get_file_name env s.messages s.temperature s.model
  let s0 := { s with requests := s.requests ++ gfn.2 }
  match gfn.1 with
  | Except.error _ => (s0, true)
  | Except.ok fn =>
    if env.diskOk then
      ({ s0 with savedFiles := s0.savedFiles ++ [(fn, s.messages)] }, false)
    else
      (s0, true)

/-- `process_message` (src/ChatGPT.py lines 248-287): `~exit` saves,
prints the session-end line when the save returned, and exits; `~save`
saves and prints the saved line; otherwise the message is appended
unconditionally and the request is posted only when the selected role is
"user"; there is no exception handler, so a raised exception crashes the
worker thread. -/
def process_message (env : Env) (s : State) (message role : String) : State :=
  if message = "~exit" then
    let r := save env s
    let s2 := if r.2 then r.1
              else pretty_print_conversation r.1 "Session ended." "System"
    { s2 with terminated := true }
  else if message = "~save" then
    let r := save env s
    if r.2 then { r.1 with terminated := true }
    else pretty_print_conversation r.1 "(saved)" "System"
  else
    match pyAppend s.messages
            (PyVal.dict [("role", PyVal.str role),
                         ("content", PyVal.str message)]) with
    | Except.error _ => { s with crashed := true }
    | Except.ok ms =>
      let s1 := pretty_print_conversation { s with messages := ms } message role
      if role = "user" then
        let payload := mkPayload s1.messages s1.temperature s1.model
        let s2 := { s1 with requests := s1.requests ++ [payload] }
        match env.httpPost payload with
        | HttpResult.exn _ => { s2 with crashed := true }
        | HttpResult.ok resp =>
          if resp.status = 200 then
            match resp.body with
            | Option.none => { s2 with crashed := true }
            | some data =>
              match pyGetItem data "response" with
              | Except.error _ => { s2 with crashed := true }
              | Except.ok respVal =>
                match pyAppend s2.messages
                        (PyVal.dict [("role", PyVal.str "assistant"),
                                     ("content", respVal)]) with
                | Except.error _ => { s2 with crashed := true }
                | Except.ok ms2 =>
                  pretty_print_conversation { s2 with messages := ms2 }
                    (pyStrOf respVal) "Assistant"
          else
            pretty_print_conversation s2
              ("Failed to get a response, status code: " ++ toString resp.status)
              "System"
      else s1

/-- The state while the worker thread is running: `send_message` in this
revision only clears the input field and starts the thread; the input
widget is never disabled. -/
def sendDuring (s : State) : State := s

/-- `send_message` (src/ChatGPT.py lines 241-246): a thread is started
only when the input is non-empty (the input is not trimmed). -/
def send_message (env : Env) (s : State) (message role : String) : State :=
  if message = "" then s else process_message env s message role

end ChatGPT

/-- The dict the program builds for a message appended under a role. -/
def roleDict (role : String) (content : PyVal) : PyVal :=
  PyVal.dict [("role", PyVal.str role), ("content", content)]

/-- A fresh windowed-revision state: empty conversation, zero cost,
input enabled. -/
def st0 : ChatApp.State :=
  { messages := PyVal.list [], totalCost := 0, inputEnabled := true,
    display := [], requests := [], savedFiles := [], terminated := false,
    model := "gpt-4", temperature := 1 }

/-- A fresh hybrid-revision state. -/
def gst0 : ChatGPT.State :=
  { messages := PyVal.list [], inputEnabled := true, display := [],
    requests := [], savedFiles := [], terminated := false, crashed := false,
    model := "gpt-4", temperature := 1 }

/-- An environment whose network always raises a transport error. -/
def envExn : Env :=
  { httpPost := fun _ => HttpResult.exn "ConnectionError",
    now := "2026_10_12_00_00_", uuid := "f47ac10b", diskOk := true }

/-- An environment whose network always answers 500. -/
def env500 : Env :=
  { httpPost := fun _ => HttpResult.ok ⟨500, Option.none⟩,
    now := "2026_10_12_00_00_", uuid := "f47ac10b", diskOk := true }

/-- Like `env500` but every disk write fails. -/
def env500NoDisk : Env :=
  { env500 with diskOk := false }

/-- A well-formed 200 body with a response field and a cost field. -/
def bodyFull : PyVal :=
  PyVal.dict [("response", PyVal.str "ok"), ("cost", PyVal.int 1)]

/-- A 200 body with a response field but no cost field. -/
def bodyNoCost : PyVal :=
  PyVal.dict [("response", PyVal.str "ok")]

/-- A 200 body lacking the response field. -/
def bodyNoResponse : PyVal :=
  PyVal.dict [("cost", PyVal.int 1)]

/-- An environment whose network always answers 200 with `bodyFull`. -/
def env200 : Env :=
  { httpPost := fun _ => HttpResult.ok ⟨200, some bodyFull⟩,
    now := "2026_10_12_00_00_", uuid := "f47ac10b", diskOk := true }

/-- An environment whose network always answers 200 with `bodyNoCost`. -/
def env200NoCost : Env :=
  { httpPost := fun _ => HttpResult.ok ⟨200, some bodyNoCost⟩,
    now := "2026_10_12_00_00_", uuid := "f47ac10b", diskOk := true }

/-- An environment whose network always answers 200 with
`bodyNoResponse`. -/
def env200NoResponse : Env :=
  { httpPost := fun _ => HttpResult.ok ⟨200, some bodyNoResponse⟩,
    now := "2026_10_12_00_00_", uuid := "f47ac10b", diskOk := true }

/-- Reading back the dict written for a message recovers the message. -/
theorem pyMsgOf_msgToPy (m : Message) : pyMsgOf (msgToPy m) = some m := rfl

/-- Reading back a written conversation list recovers the conversation. -/
theorem readConv_map (c : List Message) :
    readConv (c.map msgToPy) = some c := by
  induction c with
  | nil => rfl
  | cons m rest ih => simp [readConv, pyMsgOf_msgToPy, ih]

/-- Round trip at the level of the persisted JSON document. -/
theorem pyToConv_convToPy (c : List Message) :
    pyToConv (convToPy c) = some c := by
  simp [pyToConv, convToPy, readConv_map]

/-- Displaying a written message dict never raises. -/
theorem renderLoadItem_msgToPy (m : Message) :
    ChatApp.renderLoadItem (msgToPy m) =
      Except.ok (m.role.toUpper ++ ": " ++ m.content) := rfl

/-- Displaying a written conversation never raises. -/
theorem renderLoad_map_none (c : List Message) :
    (ChatApp.renderLoad (c.map msgToPy)).2 = Option.none := by
  induction c with
  | nil => rfl
  | cons m rest ih =>
    simp [ChatApp.renderLoad, renderLoadItem_msgToPy, ih]

/-- The fields `save` never writes. -/
theorem ChatApp_save_fields (env : Env) (s : ChatApp.State) :
    (ChatApp.save env s).1.terminated = s.terminated
    ∧ (ChatApp.save env s).1.inputEnabled = s.inputEnabled
    ∧ (ChatApp.save env s).1.messages = s.messages
    ∧ (ChatApp.save env s).1.totalCost = s.totalCost := by
  cases hg : (get_file_name env s.messages s.temperature s.model).1 with
  | error e => simp [ChatApp.save, hg]
  | ok fn =>
    cases hd : env.diskOk <;>
      simp [ChatApp.save, hg, hd, ChatApp.update_chat_history]

/-- A successful `save` writes exactly one file holding the current
messages. -/
theorem ChatApp_save_ok (env : Env) (s : ChatApp.State)
    (h : (ChatApp.save env s).2 = false) :
    ∃ fn, (ChatApp.save env s).1.savedFiles
          = s.savedFiles ++ [(fn, s.messages)] := by
  cases hg : (get_file_name env s.messages s.temperature s.model).1 with
  | error e => simp [ChatApp.save, hg] at h
  | ok fn =>
    cases hd : env.diskOk with
    | false => simp [ChatApp.save, hg, hd] at h
    | true =>
      exact ⟨fn, by simp [ChatApp.save, hg, hd, ChatApp.update_chat_history]⟩

/-- Successful round trip through `processBody`: the selected-role message
and the assistant reply are appended, the cost is accumulated, one request
is posted. -/
theorem ChatApp_processBody_ok200 (env : Env) (s : ChatApp.State)
    (m r : String) (l : List PyVal) (data rv cv : PyVal) (c : Int)
    (hm : m ≠ "") (hmsgs : s.messages = PyVal.list l)
    (hpost : ∀ p, env.httpPost p = HttpResult.ok ⟨200, some data⟩)
    (hcv : pyGet data "cost" (PyVal.int 0) = Except.ok cv)
    (hc : pyAsNum cv = Except.ok c)
    (hrv : pyGetItem data "response" = Except.ok rv) :
    ChatApp.processBody env s m r =
      { s with
        messages := PyVal.list
          (l ++ [roleDict r (PyVal.str m), roleDict "assistant" rv]),
        totalCost := s.totalCost + c,
        display := s.display
          ++ [r.toUpper ++ ": " ++ m, "Assistant".toUpper ++ ": " ++ pyStrOf rv],
        requests := s.requests
          ++ [mkPayload (PyVal.list (l ++ [roleDict r (PyVal.str m)]))
                s.temperature s.model] } := by
  simp [ChatApp.processBody, hm, hmsgs, hpost, hcv, hc, hrv, pyAppend,
    roleDict, ChatApp.update_chat_history, ChatApp.exnLine,
    List.append_assoc]

/-- Non-200 round trip through `processBody`: the selected-role message is
appended, no assistant message is appended, the cost is unchanged, the
status-code failure line is displayed. -/
theorem ChatApp_processBody_non200 (env : Env) (s : ChatApp.State)
    (m r : String) (l : List PyVal) (resp : HttpResponse)
    (hm : m ≠ "") (hmsgs : s.messages = PyVal.list l)
    (hpost : ∀ p, env.httpPost p = HttpResult.ok resp)
    (hstatus : resp.status ≠ 200) :
    ChatApp.processBody env s m r =
      { s with
        messages := PyVal.list (l ++ [roleDict r (PyVal.str m)]),
        display := s.display
          ++ [r.toUpper ++ ": " ++ m,
              "Program".toUpper ++ ": "
                ++ ("Failed to get a response, status code: "
                    ++ toString resp.status)],
        requests := s.requests
          ++ [mkPayload (PyVal.list (l ++ [roleDict r (PyVal.str m)]))
                s.temperature s.model] } := by
  simp [ChatApp.processBody, hm, hmsgs, hpost, hstatus, pyAppend,
    roleDict, ChatApp.update_chat_history, ChatApp.exnLine,
    List.append_assoc]

/-- On empty input `processBody` still posts the current conversation:
the request log grows by exactly the payload of the unchanged messages,
whatever the outcome of the call. -/
theorem ChatApp_processBody_empty_requests (env : Env) (s : ChatApp.State)
    (r : String) :
    (ChatApp.processBody env s "" r).requests =
      s.requests ++ [mkPayload s.messages s.temperature s.model] := by
  simp only [ChatApp.processBody, if_pos rfl]
  cases hp : env.httpPost (mkPayload s.messages s.temperature s.model) with
  | exn e => simp [hp, ChatApp.exnLine, ChatApp.update_chat_history]
  | ok resp =>
    by_cases hst : resp.status = 200
    · cases hb : resp.body with
      | none => simp [hp, hst, hb, ChatApp.exnLine, ChatApp.update_chat_history]
      | some data =>
        cases hcv : pyGet data "cost" (PyVal.int 0) with
        | error e =>
          simp [hp, hst, hb, hcv, ChatApp.exnLine, ChatApp.update_chat_history]
        | ok cv =>
          cases hc : pyAsNum cv with
          | error e =>
            simp [hp, hst, hb, hcv, hc, ChatApp.exnLine,
              ChatApp.update_chat_history]
          | ok c =>
            cases hrv : pyGetItem data "response" with
            | error e =>
              simp [hp, hst, hb, hcv, hc, hrv, ChatApp.exnLine,
                ChatApp.update_chat_history]
            | ok rv =>
              cases hap : pyAppend s.messages
                  (PyVal.dict [("role", PyVal.str "assistant"),
                               ("content", rv)]) with
              | error e =>
                simp [hp, hst, hb, hcv, hc, hrv, hap, ChatApp.exnLine,
                  ChatApp.update_chat_history]
              | ok ms2 =>
                simp [hp, hst, hb, hcv, hc, hrv, hap, ChatApp.exnLine,
                  ChatApp.update_chat_history]
    · simp [hp, hst, ChatApp.exnLine, ChatApp.update_chat_history]

/-- A successful send in the windowed revision: the selected-role message
and the assistant reply are appended (any role), one request is posted,
input ends re-enabled. -/
theorem ChatApp_send_ok200 (env : Env) (s : ChatApp.State)
    (m r : String) (l : List PyVal) (data rv cv : PyVal) (c : Int)
    (hm : m ≠ "") (hms : m ≠ "~save") (hme : m ≠ "~exit")
    (hmsgs : s.messages = PyVal.list l)
    (hpost : ∀ p, env.httpPost p = HttpResult.ok ⟨200, some data⟩)
    (hcv : pyGet data "cost" (PyVal.int 0) = Except.ok cv)
    (hc : pyAsNum cv = Except.ok c)
    (hrv : pyGetItem data "response" = Except.ok rv) :
    ChatApp.send_message env s m r =
      { s with
        messages := PyVal.list
          (l ++ [roleDict r (PyVal.str m), roleDict "assistant" rv]),
        totalCost := s.totalCost + c,
        inputEnabled := true,
        display := s.display
          ++ [r.toUpper ++ ": " ++ m, "Assistant".toUpper ++ ": " ++ pyStrOf rv],
        requests := s.requests
          ++ [mkPayload (PyVal.list (l ++ [roleDict r (PyVal.str m)]))
                s.temperature s.model] } := by
  have hb := ChatApp_processBody_ok200 env (ChatApp.sendDuring s) m r l data
    rv cv c hm (by simp [ChatApp.sendDuring, hmsgs]) hpost hcv hc hrv
  simp [ChatApp.send_message, ChatApp.process_message, hme, hms,
    ChatApp.sendDuring] at hb ⊢
  simp [hb]

/-- After any number of successful round trips (any roles), the
conversation grows by exactly two messages per send. -/
theorem ChatApp_sendN_length (env : Env) (data rv cv : PyVal) (c : Int)
    (hpost : ∀ p, env.httpPost p = HttpResult.ok ⟨200, some data⟩)
    (hcv : pyGet data "cost" (PyVal.int 0) = Except.ok cv)
    (hc : pyAsNum cv = Except.ok c)
    (hrv : pyGetItem data "response" = Except.ok rv) :
    ∀ (inputs : List (String × String)) (s : ChatApp.State) (l : List PyVal),
      (∀ mr ∈ inputs, mr.1 ≠ "" ∧ mr.1 ≠ "~save" ∧ mr.1 ≠ "~exit") →
      s.messages = PyVal.list l →
      pyListLength (ChatApp.sendN env s inputs).messages
        = l.length + 2 * inputs.length := by
  intro inputs
  induction inputs with
  | nil =>
    intro s l _ hl
    simp [ChatApp.sendN, hl, pyListLength]
  | cons mr rest ih =>
    intro s l hin hl
    have hmr := hin mr (List.mem_cons_self mr rest)
    have hstep := ChatApp_send_ok200 env s mr.1 mr.2 l data rv cv c
      hmr.1 hmr.2.1 hmr.2.2 hl hpost hcv hc hrv
    have hfold : ChatApp.sendN env s (mr :: rest)
        = ChatApp.sendN env (ChatApp.send_message env s mr.1 mr.2) rest := rfl
    rw [hfold, hstep]
    refine Eq.trans
      (ih _ _ (fun x hx => hin x (List.mem_cons_of_mem mr hx)) rfl) ?_
    simp only [List.length_append, List.length_cons, List.length_nil]
    omega

/-- In the hybrid revision a send whose selected role is not "user" never
posts a request. -/
theorem ChatGPT_process_nonuser_requests (env : Env) (s : ChatGPT.State)
    (m role : String) (hme : m ≠ "~exit") (hms : m ≠ "~save")
    (hrole : role ≠ "user") :
    (ChatGPT.process_message env s m role).requests = s.requests := by
  simp only [ChatGPT.process_message, if_neg hme, if_neg hms]
  cases hap : pyAppend s.messages
      (PyVal.dict [("role", PyVal.str role), ("content", PyVal.str m)]) with
  | error e => simp [hap]
  | ok ms => simp [hap, hrole, ChatGPT.pretty_print_conversation]

/-- One more send-shape helper: non-200 send as a single state equation. -/
theorem ChatApp_send_non200 (env : Env) (s : ChatApp.State)
    (m r : String) (l : List PyVal) (resp : HttpResponse)
    (hm : m ≠ "") (hms : m ≠ "~save") (hme : m ≠ "~exit")
    (hmsgs : s.messages = PyVal.list l)
    (hpost : ∀ p, env.httpPost p = HttpResult.ok resp)
    (hstatus : resp.status ≠ 200) :
    ChatApp.send_message env s m r =
      { s with
        messages := PyVal.list (l ++ [roleDict r (PyVal.str m)]),
        inputEnabled := true,
        display := s.display
          ++ [r.toUpper ++ ": " ++ m,
              "Program".toUpper ++ ": "
                ++ ("Failed to get a response, status code: "
                    ++ toString resp.status)],
        requests := s.requests
          ++ [mkPayload (PyVal.list (l ++ [roleDict r (PyVal.str m)]))
                s.temperature s.model] } := by
  have hb := ChatApp_processBody_non200 env (ChatApp.sendDuring s) m r l resp
    hm (by simp [ChatApp.sendDuring, hmsgs]) hpost hstatus
  simp [ChatApp.send_message, ChatApp.process_message, hme, hms,
    ChatApp.sendDuring] at hb ⊢
  simp [hb]

/-- Claim C1 (counterexample): a transport error during the
filename-suggestion request propagates out of `get_file_name` instead of
yielding the fallback name, and `save` then exits without writing any
file — refuting that every failure mode degrades to a generated name so
that `save` always proceeds to write. -/
theorem claim_C1_counterexample :
    (get_file_name envExn (PyVal.list []) 1 "gpt-4").1
        = Except.error "ConnectionError"
    ∧ (ChatApp.save envExn st0).2 = true
    ∧ (ChatApp.save envExn st0).1.savedFiles = [] :=
  ⟨rfl, rfl, rfl⟩

/-- Claim C1 (amended): `get_file_name` returns the generated fallback
name (timestamp plus uuid plus ".json") exactly when the HTTP call
returns a non-200 status; a raised transport error propagates as an
exception, as does a 200 reply whose body lacks the response field. -/
theorem claim_C1_amended (env1 env2 env3 : Env) (msgs : PyVal)
    (l : List PyVal) (temp : Int) (model : String)
    (resp : HttpResponse) (e : String) (d : List (String × PyVal))
    (hmsgs : msgs = PyVal.list l)
    (h1 : ∀ p, env1.httpPost p = HttpResult.ok resp)
    (hst : resp.status ≠ 200)
    (h2 : ∀ p, env2.httpPost p = HttpResult.exn e)
    (h3 : ∀ p, env3.httpPost p = HttpResult.ok ⟨200, some (PyVal.dict d)⟩)
    (hd : d.lookup "response" = Option.none) :
    (get_file_name env1 msgs temp model).1
        = Except.ok (env1.now ++ env1.uuid ++ ".json")
    ∧ (get_file_name env2 msgs temp model).1 = Except.error e
    ∧ (get_file_name env3 msgs temp model).1
        = Except.error "KeyError: response" := by
  subst hmsgs
  refine ⟨?_, ?_, ?_⟩
  · simp [get_file_name, pyAdd, systemPromptList, h1, hst]
  · simp [get_file_name, pyAdd, systemPromptList, h2]
  · simp [get_file_name, pyAdd, systemPromptList, h3, pyGetItem, hd]

/-- Claim C1 witness: concrete instances of the three branches. -/
theorem claim_C1_witness :
    (get_file_name env500 (PyVal.list []) 1 "gpt-4").1
        = Except.ok (env500.now ++ env500.uuid ++ ".json")
    ∧ (get_file_name envExn (PyVal.list []) 1 "gpt-4").1
        = Except.error "ConnectionError"
    ∧ (get_file_name env200NoResponse (PyVal.list []) 1 "gpt-4").1
        = Except.error "KeyError: response" :=
  claim_C1_amended env500 envExn env200NoResponse (PyVal.list []) [] 1 "gpt-4"
    ⟨500, Option.none⟩ "ConnectionError" [("cost", PyVal.int 1)]
    rfl (fun _ => rfl) (by decide) (fun _ => rfl) (fun _ => rfl) rfl

/-- Claim C2 (counterexample): with a failing disk write, `~save` makes
the process terminate via `os._exit(1)` — refuting that a persistence
error during `~save` is non-fatal. -/
theorem claim_C2_counterexample :
    (ChatApp.process_message env500NoDisk st0 "~save" "user").terminated
      = true := rfl

/-- Claim C2 (amended): `~save` terminates the process exactly when the
save fails (any exception in `save`, including a failed disk write,
reaches `os._exit(1)`, unreported); only when the save succeeds does the
controller stay running with input re-enabled and the file written. -/
theorem claim_C2_amended (env : Env) (s : ChatApp.State) (role : String)
    (hterm : s.terminated = false) :
    (ChatApp.process_message env s "~save" role).terminated
        = (ChatApp.save env s).2
    ∧ ((ChatApp.save env s).2 = false →
        (ChatApp.process_message env s "~save" role).inputEnabled = true
        ∧ (ChatApp.process_message env s "~save" role).savedFiles
            = (ChatApp.save env s).1.savedFiles) := by
  have hsf := ChatApp_save_fields env s
  have hne : ("~save" : String) ≠ "~exit" := by decide
  constructor
  · cases hsv : (ChatApp.save env s).2 with
    | true => simp [ChatApp.process_message, hne, hsv]
    | false => simp [ChatApp.process_message, hne, hsv, hsf.1, hterm]
  · intro hsv
    simp [ChatApp.process_message, hne, hsv]

/-- Claim C2 witness: a succeeding save keeps the process running with
input enabled; a failing save terminates it. -/
theorem claim_C2_witness :
    (ChatApp.process_message env500 st0 "~save" "user").inputEnabled = true
    ∧ (ChatApp.process_message env500NoDisk st0 "~save" "user").terminated
        = true :=
  ⟨((claim_C2_amended env500 st0 "user" rfl).2 rfl).1,
   ((claim_C2_amended env500NoDisk st0 "user" rfl).1).trans rfl⟩

/-- Claim C3 (confirmed): on a non-200 response, no assistant message is
appended (the conversation gains only the user's own message), the
running cost total is unchanged, a failure line naming the status code is
displayed, and input is re-enabled with the process still running. -/
theorem claim_C3_non200 (env : Env) (s : ChatApp.State)
    (m r : String) (l : List PyVal) (resp : HttpResponse)
    (hm : m ≠ "") (hms : m ≠ "~save") (hme : m ≠ "~exit")
    (hmsgs : s.messages = PyVal.list l)
    (hpost : ∀ p, env.httpPost p = HttpResult.ok resp)
    (hstatus : resp.status ≠ 200) :
    (ChatApp.send_message env s m r).messages
        = PyVal.list (l ++ [roleDict r (PyVal.str m)])
    ∧ (ChatApp.send_message env s m r).totalCost = s.totalCost
    ∧ (ChatApp.send_message env s m r).display
        = s.display
          ++ [r.toUpper ++ ": " ++ m,
              "Program".toUpper ++ ": "
                ++ ("Failed to get a response, status code: "
                    ++ toString resp.status)]
    ∧ (ChatApp.send_message env s m r).inputEnabled = true
    ∧ (ChatApp.send_message env s m r).terminated = s.terminated := by
  have hsend := ChatApp_send_non200 env s m r l resp hm hms hme hmsgs
    hpost hstatus
  simp [hsend]

/-- Claim C3 witness: a 500 response at a concrete state. -/
theorem claim_C3_witness :
    (ChatApp.send_message env500 st0 "hi" "user").messages
        = PyVal.list ([] ++ [roleDict "user" (PyVal.str "hi")])
    ∧ (ChatApp.send_message env500 st0 "hi" "user").totalCost = st0.totalCost
    ∧ (ChatApp.send_message env500 st0 "hi" "user").display
        = st0.display
          ++ ["user".toUpper ++ ": " ++ "hi",
              "Program".toUpper ++ ": "
                ++ ("Failed to get a response, status code: "
                    ++ toString (500 : Nat))]
    ∧ (ChatApp.send_message env500 st0 "hi" "user").inputEnabled = true
    ∧ (ChatApp.send_message env500 st0 "hi" "user").terminated
        = st0.terminated :=
  claim_C3_non200 env500 st0 "hi" "user" [] ⟨500, Option.none⟩
    (by decide) (by decide) (by decide) rfl (fun _ => rfl) (by decide)

/-- Claim C4 (confirmed): a successful save writes exactly the JSON list
of the conversation's role/content dicts, and loading that document back
replaces the in-memory messages with it; reading the result as role and
content pairs yields the original conversation, in order. -/
theorem claim_C4_roundtrip (env : Env) (s t : ChatApp.State)
    (conv : List Message)
    (hm : s.messages = convToPy conv)
    (hsv : (ChatApp.save env s).2 = false) :
    ∃ fn, (ChatApp.save env s).1.savedFiles
            = s.savedFiles ++ [(fn, convToPy conv)]
      ∧ (ChatApp.load t (convToPy conv)).1.messages = convToPy conv
      ∧ pyToConv ((ChatApp.load t (convToPy conv)).1.messages)
          = some conv := by
  obtain ⟨fn, hfn⟩ := ChatApp_save_ok env s hsv
  have hload : (ChatApp.load t (convToPy conv)).1.messages = convToPy conv := by
    simp [ChatApp.load, convToPy, pyIter]
  exact ⟨fn, by rw [hfn, hm], hload,
    by rw [hload]; exact pyToConv_convToPy conv⟩

/-- Claim C4 witness: a concrete two-message conversation survives the
save/load round trip. -/
theorem claim_C4_witness :
    ∃ fn, (ChatApp.save env500
            { st0 with
              messages := convToPy [⟨"user", "hi"⟩, ⟨"assistant", "yo"⟩]
            }).1.savedFiles
            = ({ st0 with
                 messages := convToPy [⟨"user", "hi"⟩, ⟨"assistant", "yo"⟩]
               } : ChatApp.State).savedFiles
              ++ [(fn, convToPy [⟨"user", "hi"⟩, ⟨"assistant", "yo"⟩])]
      ∧ (ChatApp.load st0
            (convToPy [⟨"user", "hi"⟩, ⟨"assistant", "yo"⟩])).1.messages
          = convToPy [⟨"user", "hi"⟩, ⟨"assistant", "yo"⟩]
      ∧ pyToConv ((ChatApp.load st0
            (convToPy [⟨"user", "hi"⟩, ⟨"assistant", "yo"⟩])).1.messages)
          = some [⟨"user", "hi"⟩, ⟨"assistant", "yo"⟩] :=
  claim_C4_roundtrip env500
    { st0 with messages := convToPy [⟨"user", "hi"⟩, ⟨"assistant", "yo"⟩] }
    st0 [⟨"user", "hi"⟩, ⟨"assistant", "yo"⟩] rfl rfl

/-- Claim C5 (counterexample): in the windowed revision, submitting empty
input still posts a completion request (the POST sits outside the
emptiness check), refuting that empty input is a complete no-op with no
network request. -/
theorem claim_C5_counterexample :
    (ChatApp.send_message envExn st0 "" "user").requests.length = 1 := rfl

/-- Claim C5 (amended): in the hybrid revision an empty submission is a
complete no-op (no thread, no append, no request, state unchanged); in
the windowed revision an empty submission appends no user message but
still posts one completion request carrying the unchanged conversation.
Input is compared against the empty string only — it is not trimmed. -/
theorem claim_C5_amended (env : Env) (gs : ChatGPT.State)
    (s : ChatApp.State) (role : String) :
    ChatGPT.send_message env gs "" role = gs
    ∧ (ChatApp.send_message env s "" role).requests
        = s.requests ++ [mkPayload s.messages s.temperature s.model] := by
  have hne1 : ("" : String) ≠ "~exit" := by decide
  have hne2 : ("" : String) ≠ "~save" := by decide
  constructor
  · simp [ChatGPT.send_message]
  · have hb := ChatApp_processBody_empty_requests env (ChatApp.sendDuring s) role
    simpa [ChatApp.send_message, ChatApp.process_message, hne1, hne2,
      ChatApp.sendDuring] using hb

/-- Claim C6 (counterexample): in the hybrid revision a non-empty,
non-command send under the "system" role appends the message but never
invokes the completion request — refuting that a send posts the request
regardless of the selected role. -/
theorem claim_C6_counterexample :
    (ChatGPT.send_message env200 gst0 "hello" "system").requests = []
    ∧ pyListLength (ChatGPT.send_message env200 gst0 "hello" "system").messages
        = 1 :=
  ⟨rfl, rfl⟩

/-- Claim C6 (amended): in the windowed revision any non-empty,
non-command send appends one message under the selected role (user or
system), posts exactly one completion request, and a 200 reply appends
one assistant message, so N successful round trips grow the conversation
by 2N over its starting length (prepare-staged messages being part of
that starting length); in the hybrid revision the request is posted only
when the selected role is "user". -/
theorem claim_C6_amended (env : Env) (s : ChatApp.State)
    (gs : ChatGPT.State) (m r grole : String) (l : List PyVal)
    (data rv cv : PyVal) (c : Int) (inputs : List (String × String))
    (hm : m ≠ "") (hms : m ≠ "~save") (hme : m ≠ "~exit")
    (hmsgs : s.messages = PyVal.list l)
    (hpost : ∀ p, env.httpPost p = HttpResult.ok ⟨200, some data⟩)
    (hcv : pyGet data "cost" (PyVal.int 0) = Except.ok cv)
    (hc : pyAsNum cv = Except.ok c)
    (hrv : pyGetItem data "response" = Except.ok rv)
    (hin : ∀ mr ∈ inputs, mr.1 ≠ "" ∧ mr.1 ≠ "~save" ∧ mr.1 ≠ "~exit")
    (hrole : grole ≠ "user") :
    (ChatApp.send_message env s m r).messages
        = PyVal.list (l ++ [roleDict r (PyVal.str m), roleDict "assistant" rv])
    ∧ (ChatApp.send_message env s m r).requests
        = s.requests
          ++ [mkPayload (PyVal.list (l ++ [roleDict r (PyVal.str m)]))
                s.temperature s.model]
    ∧ pyListLength (ChatApp.sendN env s inputs).messages
        = l.length + 2 * inputs.length
    ∧ (ChatGPT.send_message env gs m grole).requests = gs.requests := by
  have hstep := ChatApp_send_ok200 env s m r l data rv cv c
    hm hms hme hmsgs hpost hcv hc hrv
  refine ⟨by simp [hstep], by simp [hstep], ?_, ?_⟩
  · exact ChatApp_sendN_length env data rv cv c hpost hcv hc hrv inputs s l
      hin hmsgs
  · simp [ChatGPT.send_message, hm,
      ChatGPT_process_nonuser_requests env gs m grole hme hms hrole]

/-- Claim C6 witness: a system-role send in the windowed revision and two
successful round trips from an empty conversation. -/
theorem claim_C6_witness :
    (ChatApp.send_message env200 st0 "hi" "system").messages
        = PyVal.list ([] ++ [roleDict "system" (PyVal.str "hi"),
                             roleDict "assistant" (PyVal.str "ok")])
    ∧ (ChatApp.send_message env200 st0 "hi" "system").requests
        = st0.requests
          ++ [mkPayload (PyVal.list ([] ++ [roleDict "system" (PyVal.str "hi")]))
                st0.temperature st0.model]
    ∧ pyListLength
        (ChatApp.sendN env200 st0 [("a", "user"), ("b", "system")]).messages
        = 4
    ∧ (ChatGPT.send_message env200 gst0 "hi" "system").requests
        = gst0.requests :=
  claim_C6_amended env200 st0 gst0 "hi" "system" "system" [] bodyFull
    (PyVal.str "ok") (PyVal.int 1) 1 [("a", "user"), ("b", "system")]
    (by decide) (by decide) (by decide) rfl (fun _ => rfl) rfl rfl rfl
    (by
      intro mr hmr
      simp [List.mem_cons] at hmr
      rcases hmr with rfl | rfl
      · exact ⟨by decide, by decide, by decide⟩
      · exact ⟨by decide, by decide, by decide⟩)
    (by decide)

/-- Claim C7 (confirmed): `~exit` performs the same save as `~save` and
terminates the process for every outcome of the save — a failing save
exits from inside `save`, a successful one from the `os._exit(1)` that
follows — in both revisions. -/
theorem claim_C7_exit_terminates (env : Env) (s : ChatApp.State)
    (gs : ChatGPT.State) (role grole : String) :
    (ChatApp.process_message env s "~exit" role).terminated = true
    ∧ (ChatApp.process_message env s "~exit" role).savedFiles
        = (ChatApp.save env s).1.savedFiles
    ∧ (ChatGPT.process_message env gs "~exit" grole).terminated = true := by
  refine ⟨?_, ?_, ?_⟩
  · simp [ChatApp.process_message]
  · simp [ChatApp.process_message]
  · simp [ChatGPT.process_message]

/-- Claim C8 (counterexample): in the hybrid revision the input controls
are never disabled: while a first send's request is in flight the input
stays enabled and a second send posts another request — refuting that a
second submission is rejected while `Sending` and that at most one
request is ever outstanding. -/
theorem claim_C8_counterexample :
    (ChatGPT.sendDuring gst0).inputEnabled = true
    ∧ (ChatGPT.send_message envExn (ChatGPT.sendDuring gst0) "again"
        "user").requests.length = 1 :=
  ⟨rfl, rfl⟩

/-- Claim C8 (amended): in the windowed revision the input controls are
disabled while the request is in flight and re-enabled on every exit path
of a chat turn (success, non-200, raised exception); the hybrid revision
never disables them. -/
theorem claim_C8_amended (env : Env) (s : ChatApp.State) (m role : String)
    (hms : m ≠ "~save") (hme : m ≠ "~exit") :
    (ChatApp.sendDuring s).inputEnabled = false
    ∧ (ChatApp.send_message env s m role).inputEnabled = true := by
  refine ⟨rfl, ?_⟩
  simp [ChatApp.send_message, ChatApp.process_message, hms, hme]

/-- Claim C8 witness: a concrete chat turn whose request raises. -/
theorem claim_C8_witness :
    (ChatApp.sendDuring st0).inputEnabled = false
    ∧ (ChatApp.send_message envExn st0 "hi" "user").inputEnabled = true :=
  claim_C8_amended envExn st0 "hi" "user" (by decide) (by decide)

/-- Claim C9 (confirmed): a 200 response whose body lacks the cost field
adds exactly 0 to the running total (via the `.get` default), raises
nothing, and the assistant message is still appended with input
re-enabled. -/
theorem claim_C9_missing_cost (env : Env) (s : ChatApp.State)
    (m r : String) (l : List PyVal) (d : List (String × PyVal)) (rv : PyVal)
    (hm : m ≠ "") (hms : m ≠ "~save") (hme : m ≠ "~exit")
    (hmsgs : s.messages = PyVal.list l)
    (hpost : ∀ p, env.httpPost p = HttpResult.ok ⟨200, some (PyVal.dict d)⟩)
    (hcost : d.lookup "cost" = Option.none)
    (hresp : d.lookup "response" = some rv) :
    (ChatApp.send_message env s m r).totalCost = s.totalCost
    ∧ (ChatApp.send_message env s m r).messages
        = PyVal.list (l ++ [roleDict r (PyVal.str m), roleDict "assistant" rv])
    ∧ (ChatApp.send_message env s m r).inputEnabled = true := by
  have hstep := ChatApp_send_ok200 env s m r l (PyVal.dict d) rv
    (PyVal.int 0) 0 hm hms hme hmsgs hpost
    (by simp [pyGet, hcost]) rfl (by simp [pyGetItem, hresp])
  simp [hstep]

/-- Claim C9 witness: a concrete 200 reply without a cost field. -/
theorem claim_C9_witness :
    (ChatApp.send_message env200NoCost st0 "hi" "user").totalCost
        = st0.totalCost
    ∧ (ChatApp.send_message env200NoCost st0 "hi" "user").messages
        = PyVal.list ([] ++ [roleDict "user" (PyVal.str "hi"),
                             roleDict "assistant" (PyVal.str "ok")])
    ∧ (ChatApp.send_message env200NoCost st0 "hi" "user").inputEnabled
        = true :=
  claim_C9_missing_cost env200NoCost st0 "hi" "user" []
    [("response", PyVal.str "ok")] (PyVal.str "ok")
    (by decide) (by decide) (by decide) rfl (fun _ => rfl) rfl rfl

/-- Claim C10 (counterexample): loading a file whose JSON content is the
number 42 replaces the in-memory conversation with 42 but then raises
(iterating a number is a TypeError) — refuting that a load of any
JSON-parsable value completes with no error. -/
theorem claim_C10_counterexample :
    (ChatApp.load st0 (PyVal.int 42)).1.messages = PyVal.int 42
    ∧ ((ChatApp.load st0 (PyVal.int 42)).2).isSome = true :=
  ⟨rfl, rfl⟩

/-- Claim C10 (amended): `load` wholly replaces the in-memory
conversation with the parsed value as-is — no shape validation, no
filtering, even for non-list values, and even on the paths where the
subsequent display refresh raises; the refresh raises no error precisely
on well-shaped history documents, whose round trip also restores the
conversation. -/
theorem claim_C10_amended (s : ChatApp.State) (v : PyVal)
    (conv : List Message) :
    (ChatApp.load s v).1.messages = v
    ∧ (ChatApp.load s (convToPy conv)).2 = Option.none
    ∧ pyToConv ((ChatApp.load s (convToPy conv)).1.messages) = some conv := by
  have hload : ∀ w, (ChatApp.load s w).1.messages = w := by
    intro w
    cases hi : pyIter w with
    | error e => simp [ChatApp.load, hi]
    | ok items => simp [ChatApp.load, hi]
  refine ⟨hload v, ?_, ?_⟩
  · simp [ChatApp.load, convToPy, pyIter, renderLoad_map_none]
  · rw [hload (convToPy conv)]
    exact pyToConv_convToPy conv
